import Mathlib

/-!
Verification of the per-tool output parsers of the post-edit quality-gate
hooks (`python-quality-check.py` and `typescript-quality-check.py`).

Each Python parser is a pure function of the captured tool output text (and,
where the source consults it, the exit code).  The definitions below embed
those functions over `List Char` (the character data of a `String`), mirroring the
source line by line:

* Python `str.strip()`            → `pyStrip`
* Python `s.split(c)`             → `pySplit`
* Python `needle in haystack`     → `pyIn`
* Python `s.startswith(p)`        → `pyPre`
* Python `s.endswith(p)`          → `pyEndsWith`
* Python `re` patterns            → hand-rolled matchers implementing the
  exact backtracking/priority semantics of each concrete pattern (greedy and
  lazy repetition, alternation order, search over start positions).

All definitions are executable and use only structural recursion, so concrete
runs evaluate by `decide` / `rfl`.
-/

namespace QualityHooks

/-- Whitespace set of Python `str.strip` and `\s`. -/
def pyWs (c : Char) : Bool :=
  c = ' ' || c = '\t' || c = '\n' || c = '\r' || c = '\x0b' || c = '\x0c'

/-- ASCII digit, Python `\d`. -/
def pyDigit (c : Char) : Bool :=
  '0' ≤ c && c ≤ '9'

/-- Python `\w` (ASCII fragment). -/
def pyWord (c : Char) : Bool :=
  c.isAlpha || pyDigit c || c = '_'

/-- Character class of the ESLint rule-name group: word characters plus
at-sign, slash and hyphen. -/
def ruleChar (c : Char) : Bool :=
  pyWord c || c = '@' || c = '/' || c = '-'

/-- Literal-starts-with test: `pyPre n h` holds when `h` begins with `n` (Python `h.startswith(n)`). -/
def pyPre : List Char → List Char → Bool
  | [], _ => true
  | _ :: _, [] => false
  | a :: as, b :: bs => a = b && pyPre as bs

/-- Python substring test `n in h`. -/
def pyIn (n : List Char) : List Char → Bool
  | [] => pyPre n []
  | c :: t => pyPre n (c :: t) || pyIn n t

/-- Python `h.endswith(n)`. -/
def pyEndsWith (n h : List Char) : Bool :=
  pyPre n.reverse h.reverse

/-- Python `str.strip()`: drop leading and trailing whitespace. -/
def pyStrip (l : List Char) : List Char :=
  ((l.dropWhile pyWs).reverse.dropWhile pyWs).reverse

/-- Python `s.split(c)` (all occurrences, keeps empty pieces; `"".split(c) = [""]`). -/
def pySplit (c : Char) : List Char → List (List Char)
  | [] => [[]]
  | x :: xs =>
    if x = c then [] :: pySplit c xs
    else
      match pySplit c xs with
      | [] => [[x]]
      | p :: ps => (x :: p) :: ps

/-- Python `s.split(c)[-1]` (split is never empty, so the default is unused). -/
def lastSplit (c : Char) (l : List Char) : List Char :=
  (pySplit c l).getLastD []

/-- Python `int` on a run of decimal digits. -/
def natOfDigits (l : List Char) : Nat :=
  l.foldl (fun n c => 10 * n + (c.toNat - 48)) 0

/-- Position loop of `re.search`: try the matcher at every start position,
earliest first. -/
def searchPos (f : List Char → Option α) : List Char → Option α
  | [] => f []
  | c :: t =>
    match f (c :: t) with
    | some r => some r
    | none => searchPos f t

/-! ### Prettier-class parser (`parse_prettier_output`)

Patterns embedded (from `typescript-quality-check.py`):
* exit 1: `re.search` of literal `[warn] ` followed by a greedy nonempty run
  of non-newline characters up to end of line (MULTILINE dollar);
* exit 2: `re.search` of literal `[error] ` then a greedy nonempty colon-free
  group, `: `, a greedy nonempty word group, `: `, a lazy nonempty dot group,
  then a space, `(`, digits, `:`, digits, `)`;
* exit 2 fallback: `re.search` of literal `[error] ` then a greedy nonempty
  run of characters that are neither whitespace nor colon.

Greedy character-class runs followed by a character outside the class are
deterministic (backtracking cannot help), so they are taken maximally; the
lazy dot group is grown one character at a time, shortest first, exactly as
the backtracking engine explores it. -/

/-- Trailing part of the exit-2 pattern: space, `(`, digit run, `:`, digit
run, `)`. Returns the two digit-run groups. -/
def prettierTail (l : List Char) : Option (List Char × List Char) :=
  match l with
  | ' ' :: '(' :: r =>
    let s1 := r.span pyDigit
    if s1.1.isEmpty then none
    else
      match s1.2 with
      | ':' :: r2 =>
        let s2 := r2.span pyDigit
        if s2.1.isEmpty then none
        else
          match s2.2 with
          | ')' :: _ => some (s1.1, s2.1)
          | _ => none
      | _ => none
  | _ => none

/-- Lazy growth of the message group of the exit-2 pattern: consume at least
one non-newline character, trying the tail after each character, shortest
message first. -/
def prettierLazy (msgRev : List Char) : List Char → Option (List Char × List Char × List Char)
  | [] => none
  | c :: rest =>
    if c = '\n' then none
    else
      match prettierTail rest with
      | some (ln, col) => some ((c :: msgRev).reverse, ln, col)
      | none => prettierLazy (c :: msgRev) rest

/-- Attempt the structured exit-2 error pattern at one start position.
Groups returned: (filepath, errorType, message, line, col). -/
def prettierErrorAt (l : List Char) : Option (List Char × List Char × List Char × List Char × List Char) :=
  if pyPre "[error] ".data l then
    let r0 := l.drop 8
    let s1 := r0.span (fun c => c ≠ ':')
    if s1.1.isEmpty then none
    else
      match s1.2 with
      | ':' :: ' ' :: r2 =>
        let s2 := r2.span pyWord
        if s2.1.isEmpty then none
        else
          match s2.2 with
          | ':' :: ' ' :: r4 =>
            match prettierLazy [] r4 with
            | some (msg, ln, col) => some (s1.1, s2.1, msg, ln, col)
            | none => none
          | _ => none
      | _ => none
  else none

/-- Full `re.search` of the structured exit-2 error pattern. -/
def prettierErrorSearch (l : List Char) : Option (List Char × List Char × List Char × List Char × List Char) :=
  searchPos prettierErrorAt l

/-- Attempt the exit-1 warning pattern at one start position: literal
`[warn] ` then a greedy nonempty run of non-newline characters. -/
def prettierWarnAt (l : List Char) : Option (List Char) :=
  if pyPre "[warn] ".data l then
    let g := (l.drop 7).takeWhile (fun c => c ≠ '\n')
    if g.isEmpty then none else some g
  else none

/-- Attempt the exit-2 filename fallback pattern at one start position:
literal `[error] ` then a greedy nonempty run of non-whitespace non-colon
characters. -/
def prettierFileAt (l : List Char) : Option (List Char) :=
  if pyPre "[error] ".data l then
    let g := (l.drop 8).takeWhile (fun c => !pyWs c && c ≠ ':')
    if g.isEmpty then none else some g
  else none

/-- Embedding of `parse_prettier_output(output, exit_code)` from
`typescript-quality-check.py`. -/
def parse_prettier_output (output : String) (exit_code : Int) : Option String :=
  let L := output.data
  if exit_code = 0 then none
  else if exit_code = 1 then
    match searchPos prettierWarnAt L with
    | some g =>
      some ⟨"Prettier: Formatting needed in ".data ++ lastSplit '/' (pyStrip g) ++
        " (--write failed?)".data⟩
    | none => some "Prettier: Formatting issues detected"
  else if exit_code = 2 then
    match prettierErrorSearch L with
    | some (fp, et, msg, ln, col) =>
      some ⟨"Prettier: Syntax error at ".data ++ lastSplit '/' (pyStrip fp) ++
        [':'] ++ ln ++ [':'] ++ col ++ "\n  ".data ++ pyStrip et ++ ": ".data ++ pyStrip msg⟩
    | none =>
      if pyIn "[error]".data L then
        match searchPos prettierFileAt L with
        | some f => some ⟨"Prettier: Syntax error in ".data ++ lastSplit '/' f⟩
        | none => some "Prettier: Syntax error detected"
      else some ⟨"Prettier: Unexpected exit code ".data ++ (toString exit_code).data⟩
  else some ⟨"Prettier: Unexpected exit code ".data ++ (toString exit_code).data⟩

/-! ### ESLint-class parser (`parse_eslint_output`)

Summary pattern: `re.search` of `✖ `, digit group, ` problem` with optional
`s`, ` (`, digit group, ` error` with optional `s`, `, `, digit group,
` warning` with optional `s`, `)`.  The optional `s` is deterministic: the
literal that follows each optional `s` never starts with `s`, so the engine
consumes an `s` exactly when one is present.

Issue-row pattern (`re.match`, anchored): leading whitespace run, digit
group, `:`, digit group, whitespace run, `warning` or `error`, whitespace
run, lazy nonempty dot group (message), whitespace run, greedy nonempty
rule-character group, optional trailing whitespace, end of line.  The two
whitespace runs before digits and before the level literal are deterministic
(the follower classes are disjoint from whitespace); the whitespace run
before the message backtracks (the message may itself begin with
whitespace), so it is tried longest first. -/

/-- Consume one optional literal `s` (the `s?` of the summary pattern). -/
def eslintOptS : List Char → List Char
  | 's' :: r => r
  | l => l

/-- Attempt the problems-summary pattern at one start position.  Returns
(total, errors, warnings) already converted by `int`. -/
def eslintSummaryAt (l : List Char) : Option (Nat × Nat × Nat) :=
  if pyPre "✖ ".data l then
    let s1 := (l.drop 2).span pyDigit
    if s1.1.isEmpty then none
    else if pyPre " problem".data s1.2 then
      let r2 := eslintOptS (s1.2.drop 8)
      if pyPre " (".data r2 then
        let s2 := (r2.drop 2).span pyDigit
        if s2.1.isEmpty then none
        else if pyPre " error".data s2.2 then
          let r4 := eslintOptS (s2.2.drop 6)
          if pyPre ", ".data r4 then
            let s3 := (r4.drop 2).span pyDigit
            if s3.1.isEmpty then none
            else if pyPre " warning".data s3.2 then
              match eslintOptS (s3.2.drop 8) with
              | ')' :: _ => some (natOfDigits s1.1, natOfDigits s2.1, natOfDigits s3.1)
              | _ => none
            else none
          else none
        else none
      else none
    else none
  else none

/-- `re.search` of the problems-summary pattern over the whole output. -/
def eslintSummarySearch (l : List Char) : Option (Nat × Nat × Nat) :=
  searchPos eslintSummaryAt l

/-- Deterministic tail of the issue-row pattern after the message: a
whitespace run, a greedy nonempty rule-character run, then only whitespace to
the end of the line. -/
def eslintRuleTail (r : List Char) : Option (List Char) :=
  let sw := r.span pyWs
  if sw.1.isEmpty then none
  else
    let sr := sw.2.span ruleChar
    if sr.1.isEmpty then none
    else if sr.2.all pyWs then some sr.1 else none

/-- Lazy growth of the issue-row message group: consume at least one
non-newline character, trying the rule tail after each, shortest first. -/
def eslintMsgLazy (msgRev : List Char) : List Char → Option (List Char × List Char)
  | [] => none
  | c :: rest =>
    if c = '\n' then none
    else
      match eslintRuleTail rest with
      | some rule => some ((c :: msgRev).reverse, rule)
      | none => eslintMsgLazy (c :: msgRev) rest

/-- Backtracking over the whitespace run that precedes the message group:
the run is tried longest first (greedy), shrinking only when the rest of the
pattern cannot match. -/
def eslintTailTryK (t : List Char) : Nat → Option (List Char × List Char)
  | 0 => none
  | k + 1 =>
    match eslintMsgLazy [] (t.drop (k + 1)) with
    | some r => some r
    | none => eslintTailTryK t k

/-- Anchored match of the full issue-row pattern against one line.  Returns
(lineNumber, rule) — the two groups the source consumes. -/
def eslintIssueMatch (l : List Char) : Option (List Char × List Char) :=
  let sws := l.span pyWs
  if sws.1.isEmpty then none
  else
    let sd1 := sws.2.span pyDigit
    if sd1.1.isEmpty then none
    else
      match sd1.2 with
      | ':' :: r2 =>
        let sd2 := r2.span pyDigit
        if sd2.1.isEmpty then none
        else
          let sw2 := sd2.2.span pyWs
          if sw2.1.isEmpty then none
          else
            let afterLevel :=
              if pyPre "warning".data sw2.2 then some (sw2.2.drop 7)
              else if pyPre "error".data sw2.2 then some (sw2.2.drop 5)
              else none
            match afterLevel with
            | none => none
            | some t =>
              match eslintTailTryK t (t.takeWhile pyWs).length with
              | some (_, rule) => some (sd1.1, rule)
              | none => none
      | _ => none

/-- Accumulation as with `defaultdict(list)`: append the line number to the
entry of the rule, keeping first-insertion order of rules. -/
def addIssue : List (List Char × List (List Char)) → List Char → List Char →
    List (List Char × List (List Char))
  | [], rule, num => [(rule, [num])]
  | (r, ns) :: rest, rule, num =>
    if r = rule then (r, ns ++ [num]) :: rest
    else (r, ns) :: addIssue rest rule num

/-- Table `issues_by_rule` in first-insertion order: fold the issue-row matcher
over every line of the output. -/
def eslintRawGroups (L : List Char) : List (List Char × List (List Char)) :=
  (pySplit '\n' L).foldl
    (fun acc line =>
      match eslintIssueMatch line with
      | some (num, rule) => addIssue acc rule num
      | none => acc)
    []

/-- Stable insertion into a descending-by-key list: the new element goes
before the first strictly smaller key, after all keys at least as large. -/
def insertDesc (key : α → Nat) (x : α) : List α → List α
  | [] => [x]
  | y :: ys => if key y ≤ key x then x :: y :: ys else y :: insertDesc key x ys

/-- Stable sort by descending key — the semantics of Python
`sorted(items, key=lambda x: -len(x[1]))`. -/
def sortDesc (key : α → Nat) : List α → List α
  | [] => []
  | x :: xs => insertDesc key x (sortDesc key xs)

/-- The rule groups in the order the report renders them. -/
def eslintSorted (L : List Char) : List (List Char × List (List Char)) :=
  sortDesc (fun g => g.2.length) (eslintRawGroups L)

/-- First non-empty line that does not start with a space, reduced to its
base name — the filename heuristic of the source. -/
def eslintFilename (lines : List (List Char)) : Option (List Char) :=
  lines.findSome? fun line =>
    if !(pyStrip line).isEmpty &&
        (match line with | ' ' :: _ => false | _ => true) then
      some (lastSplit '/' (pyStrip line))
    else none

/-- Header line of the report (filename present). -/
def eslintHeader (errors warnings : Nat) : Option (List Char) → List Char
  | some f =>
    if errors > 0 && warnings > 0 then
      "ESLint: ".data ++ (toString errors).data ++ " error(s), ".data ++
        (toString warnings).data ++ " warning(s) in ".data ++ f
    else if errors > 0 then
      "ESLint: ".data ++ (toString errors).data ++ " error(s) in ".data ++ f
    else
      "ESLint: ".data ++ (toString warnings).data ++ " warning(s) in ".data ++ f
  | none =>
    if errors > 0 && warnings > 0 then
      "ESLint: ".data ++ (toString errors).data ++ " error(s), ".data ++
        (toString warnings).data ++ " warning(s)".data
    else if errors > 0 then
      "ESLint: ".data ++ (toString errors).data ++ " error(s)".data
    else
      "ESLint: ".data ++ (toString warnings).data ++ " warning(s)".data

/-- Count-only fallback used when the summary parsed but no issue rows
matched. -/
def eslintCountOnly (errors warnings : Nat) : List Char :=
  eslintHeader errors warnings none

/-- One rendered per-rule group line. -/
def renderGroup (g : List Char × List (List Char)) : List Char :=
  "  - ".data ++ g.1 ++ ": ".data ++ (toString g.2.length).data ++
    "× (lines ".data ++ List.intercalate ", ".data g.2 ++ ")".data

/-- Embedding of `parse_eslint_output(output)` from
`typescript-quality-check.py`. -/
def parse_eslint_output (output : String) : Option String :=
  let L := output.data
  if L.isEmpty || (pyStrip L).isEmpty then none
  else if pyIn "✖ 0 problems".data L then none
  else
    match eslintSummarySearch L with
    | none => none
    | some (total, errors, warnings) =>
      if total = 0 then none
      else if (eslintRawGroups L).isEmpty then some ⟨eslintCountOnly errors warnings⟩
      else
        some ⟨List.intercalate "\n".data
          (eslintHeader errors warnings (eslintFilename (pySplit '\n' L)) ::
            (eslintSorted L).map renderGroup)⟩

/-! ### tsc-class parser (`parse_typescript_output`)

Error-line pattern (`re.match` on the stripped line, anchored at both ends):
a greedy nonempty dot group (file path), `(`, digit group, `,`, digit group,
`): error TS`, digit group, `: `, then a greedy nonempty dot group (message)
to the end.  The leading group is greedy, so candidate split points are tried
longest first; everything after it is deterministic. -/

/-- One tsc error entry, mirroring the dict the source builds per match. -/
structure TsError where
  filename : List Char
  line : List Char
  col : List Char
  code : List Char
  message : List Char
deriving DecidableEq

/-- Attempt the tsc error pattern with the leading file-path group of length
exactly `p`.  Returns (filepath, line, col, code, message) raw groups. -/
def tsTryAt (l : List Char) (p : Nat) :
    Option (List Char × List Char × List Char × List Char × List Char) :=
  let g1 := l.take p
  if g1.isEmpty || g1.any (fun c => c = '\n') then none
  else
    match l.drop p with
    | '(' :: r1 =>
      let s1 := r1.span pyDigit
      if s1.1.isEmpty then none
      else
        match s1.2 with
        | ',' :: r3 =>
          let s2 := r3.span pyDigit
          if s2.1.isEmpty then none
          else if pyPre "): error TS".data s2.2 then
            let s3 := (s2.2.drop 11).span pyDigit
            if s3.1.isEmpty then none
            else
              match s3.2 with
              | ':' :: ' ' :: r7 =>
                if r7.isEmpty || r7.any (fun c => c = '\n') then none
                else some (g1, s1.1, s2.1, 'T' :: 'S' :: s3.1, r7)
              | _ => none
          else none
        | _ => none
    | _ => none

/-- Greedy loop over the leading group length, longest first. -/
def tsTryFrom (l : List Char) : Nat →
    Option (List Char × List Char × List Char × List Char × List Char)
  | 0 => none
  | p + 1 =>
    match tsTryAt l (p + 1) with
    | some r => some r
    | none => tsTryFrom l p

/-- Anchored match of the tsc error pattern against one (stripped) line. -/
def tsMatchLine (l : List Char) :
    Option (List Char × List Char × List Char × List Char × List Char) :=
  tsTryFrom l l.length

/-- All error entries of the output, one per matching line, in line order. -/
def tsErrors (L : List Char) : List TsError :=
  (pySplit '\n' L).filterMap fun line =>
    (tsMatchLine (pyStrip line)).map fun g =>
      { filename := lastSplit '/' (pyStrip g.1)
        line := g.2.1
        col := g.2.2.1
        code := g.2.2.2.1
        message := pyStrip g.2.2.2.2 }

/-- Associated filename of the report: the base name from the first matching line. -/
def tsFilename (L : List Char) : Option (List Char) :=
  (tsErrors L).head?.map TsError.filename

/-- Header of the tsc report. -/
def tsHeader (n : Nat) : Option (List Char) → List Char
  | some f => "TypeScript: ".data ++ (toString n).data ++ " error(s) in ".data ++ f
  | none => "TypeScript: ".data ++ (toString n).data ++ " error(s)".data

/-- One rendered detail line of the tsc report. -/
def tsRender (e : TsError) : List Char :=
  "  - ".data ++ e.filename ++ "(".data ++ e.line ++ ",".data ++ e.col ++
    "): ".data ++ e.code ++ ": ".data ++ e.message

/-- Embedding of `parse_typescript_output(output, exit_code)` from
`typescript-quality-check.py`. -/
def parse_typescript_output (output : String) (exit_code : Int) : Option String :=
  let L := output.data
  if exit_code = 0 || L.isEmpty || (pyStrip L).isEmpty then none
  else if (tsErrors L).isEmpty then none
  else
    some ⟨List.intercalate "\n".data
      (tsHeader (tsErrors L).length (tsFilename L) :: (tsErrors L).map tsRender)⟩

/-! ### basedpyright-class parser (`check_basedpyright`)

Line classifiers (each a `bool(re.match(...))`, so only existence of a match
matters, not greedy priority):
* error marker: whitespace run, a nonempty non-newline run, `:`, digits, `:`,
  digits, ` - error:`;
* warning marker: same with ` - warning:`;
* context line: evaluated on `line.strip() and line` — empty-after-strip
  lines are never context; otherwise at least four leading whitespace
  characters followed by an uppercase letter or a double quote. -/

/-- The fixed tail `:` digits `:` digits `tok` of the marker patterns. -/
def bpColonPat (tok : List Char) (l : List Char) : Bool :=
  match l with
  | ':' :: r =>
    let s1 := r.span pyDigit
    if s1.1.isEmpty then false
    else
      match s1.2 with
      | ':' :: r2 =>
        let s2 := r2.span pyDigit
        if s2.1.isEmpty then false else pyPre tok s2.2
      | _ => false
  | _ => false

/-- Existence of a decomposition: nonempty non-newline run, then the colon
pattern with token `tok`, starting anywhere in `l`. -/
def bpMidPat (tok : List Char) : List Char → Bool
  | [] => false
  | c :: cs => c ≠ '\n' && (bpColonPat tok cs || bpMidPat tok cs)

/-- After at least one whitespace character was consumed: either the
mid-plus-pattern starts here, or consume more whitespace. -/
def bpAfterWs (tok : List Char) : List Char → Bool
  | [] => false
  | c :: cs => bpMidPat tok (c :: cs) || (pyWs c && bpAfterWs tok cs)

/-- Marker-line classifier: leading whitespace, then the mid and colon
pattern for `tok`. -/
def bpMarker (tok : List Char) (l : List Char) : Bool :=
  match l with
  | [] => false
  | c :: cs => pyWs c && bpAfterWs tok cs

/-- Context-line classifier. -/
def bpContext (l : List Char) : Bool :=
  if (pyStrip l).isEmpty then false
  else
    match l.dropWhile pyWs with
    | c :: _ => decide (4 ≤ (l.takeWhile pyWs).length) &&
        (('A' ≤ c && c ≤ 'Z') || c = '"')
    | [] => false

/-- One step of the stateful line-classification scan.  State: (emitted
error blocks, lines of the currently open block). -/
def bpStep (st : List (List Char) × List (List Char)) (line : List Char) :
    List (List Char) × List (List Char) :=
  let flush : List (List Char) :=
    if st.2.isEmpty then st.1 else st.1 ++ [List.intercalate "\n".data st.2]
  if bpMarker " - error:".data line then (flush, [line])
  else if bpMarker " - warning:".data line then (flush, [])
  else if bpContext line && !st.2.isEmpty then (st.1, st.2 ++ [line])
  else (flush, [])

/-- Embedding of the parsing done by `check_basedpyright` on the captured output
(the subprocess invocation is the external tool-runner collaborator). -/
def check_basedpyright (output : String) : Option String :=
  let lines := pySplit '\n' (pyStrip output.data)
  match (lines.reverse.find? fun l =>
      pyIn " error".data l && pyIn " warning".data l).map pyStrip with
  | none => none
  | some summary =>
    if pyIn "0 error".data summary && pyIn "0 warning".data summary then none
    else
      let st := lines.foldl bpStep ([], [])
      let errors := if st.2.isEmpty then st.1
        else st.1 ++ [List.intercalate "\n".data st.2]
      if errors.isEmpty then some ⟨summary⟩
      else some ⟨List.intercalate "\n".data errors ++ '\n' :: summary⟩

/-! ### Ruff-class parser (`check_ruff`) -/

/-- The first line of the stripped output containing both `remaining` and
`fixed` — the fix-summary line the source returns. -/
def ruffFixLine (L : List Char) : Option (List Char) :=
  (pySplit '\n' (pyStrip L)).find? fun l =>
    pyIn "remaining".data l && pyIn "fixed".data l

/-- The final fallback of `check_ruff`: any non-all-clear nonempty output is
returned whole. -/
def ruffFallback (L : List Char) : Option String :=
  if !(pyStrip L).isEmpty && !pyIn "All checks passed".data L then
    some ⟨"ruff issues:\n".data ++ pyStrip L⟩
  else none

/-- Embedding of the parsing done by `check_ruff` on the captured output. -/
def check_ruff (output : String) : Option String :=
  let L := output.data
  if pyIn "0 remaining".data L || pyIn "All checks passed".data L then none
  else if pyIn "remaining".data L then
    match ruffFixLine L with
    | some l => some ⟨"ruff: ".data ++ pyStrip l⟩
    | none => ruffFallback L
  else ruffFallback L

/-! ### bandit-class parser (`check_bandit`) -/

/-- The per-window severity filter: lines naming a severity whose stripped
text does not end in `: 0` and splits on `:` into exactly two parts
contribute `severity: count`. -/
def banditWindowIssues (window : List (List Char)) : List (List Char) :=
  window.filterMap fun sev_line =>
    if pyIn "Low:".data sev_line || pyIn "Medium:".data sev_line ||
        pyIn "High:".data sev_line then
      if pyEndsWith ": 0".data (pyStrip sev_line) then none
      else
        match pySplit ':' (pyStrip sev_line) with
        | [a, b] => some (pyStrip a ++ ": ".data ++ pyStrip b)
        | _ => none
    else none

/-- The scan over all lines: at each line containing the totals marker, look
up the first index of that line value (Python `lines.index`), inspect the
five-line window there, and return when any issue was kept. -/
def banditLoop (all : List (List Char)) : List (List Char) → Option (List Char)
  | [] => none
  | line :: rest =>
    if pyIn "Total issues (by severity):".data line then
      let idx := all.indexOf line
      let issues := banditWindowIssues ((all.drop idx).take 5)
      if issues.isEmpty then banditLoop all rest
      else some ("bandit: ".data ++ List.intercalate ", ".data issues)
    else banditLoop all rest

/-- Embedding of the parsing done by `check_bandit` on the captured output and exit
code. -/
def check_bandit (output : String) (exit_code : Int) : Option String :=
  let L := output.data
  if exit_code = 0 || (pyStrip L).isEmpty then none
  else
    let lines := pySplit '\n' (pyStrip L)
    match banditLoop lines lines with
    | some msg => some ⟨msg⟩
    | none =>
      if pyIn "Issue:".data L then some "bandit: Security issues detected"
      else none

/-! ### Concrete scenario inputs used by the claim theorems and witnesses -/

/-- A bandit severity count: `2` when the severity fires, `0` otherwise. -/
def banditSevCount (b : Bool) : String :=
  if b then "2" else "0"

/-- A bandit run whose severity-totals window reports `Low`, `Medium` and
`High` counts chosen by the three flags. -/
def banditC8Output (b1 b2 b3 : Bool) : String :=
  "Run started\n\nTotal issues (by severity):\n\tUndefined: 0\n\tLow: " ++
    banditSevCount b1 ++ "\n\tMedium: " ++ banditSevCount b2 ++ "\n\tHigh: " ++
    banditSevCount b3

/-- The summary the source should emit for `banditC8Output`: exactly the
severities with non-zero counts, in window order; no summary when all three
are zero (and no `Issue:` token is present). -/
def banditC8Expected (b1 b2 b3 : Bool) : Option String :=
  if b1 || b2 || b3 then
    some ("bandit: " ++ String.intercalate ", "
      ((if b1 then ["Low: 2"] else []) ++
       (if b2 then ["Medium: 2"] else []) ++
       (if b3 then ["High: 2"] else [])))
  else none

/-- ESLint output with three issues from two distinct rules (used to witness
the sorting claim). -/
def eslintC5Input : String :=
  "src/app.ts\n  1:1  error  Bad thing  ruleA\n  2:1  error  Bad thing  ruleB\n  3:1  error  Bad thing  ruleB\n✖ 3 problems (3 errors, 0 warnings)"

/-- The report the parser produces for `eslintC5Input`. -/
def eslintC5Report : String :=
  "ESLint: 3 error(s) in app.ts\n  - ruleB: 2× (lines 2, 3)\n  - ruleA: 1× (lines 1)"

/-- tsc output with two error lines on the same file (used to witness the
count-equality claim). -/
def tsC7Input : String :=
  "src/app.ts(3,5): error TS2322: Type mismatch.\nsrc/app.ts(7,1): error TS2304: Cannot find name.\n"

/-- The report the parser produces for `tsC7Input`. -/
def tsC7Report : String :=
  "TypeScript: 2 error(s) in app.ts\n  - app.ts(3,5): TS2322: Type mismatch.\n  - app.ts(7,1): TS2304: Cannot find name."

/-! ### Helper lemmas: substrings, split pieces, stripping -/

theorem pyPre_iff (n : List Char) : ∀ h, pyPre n h = true ↔ ∃ t, h = n ++ t := by
  induction n with
  | nil => intro h; simp [pyPre]
  | cons a as ih =>
    intro h
    cases h with
    | nil => simp [pyPre]
    | cons b bs =>
      simp only [pyPre, Bool.and_eq_true, decide_eq_true_eq, ih, List.cons_append,
        List.cons.injEq]
      constructor
      · rintro ⟨rfl, t, rfl⟩; exact ⟨t, rfl, rfl⟩
      · rintro ⟨t, rfl, rfl⟩; exact ⟨rfl, t, rfl⟩

theorem pyIn_iff (n : List Char) : ∀ h, pyIn n h = true ↔ ∃ a b, h = a ++ n ++ b := by
  intro h
  induction h with
  | nil =>
    simp only [pyIn, pyPre_iff]
    constructor
    · rintro ⟨t, ht⟩
      exact ⟨[], t, by simpa using ht⟩
    · rintro ⟨a, b, hab⟩
      have ha : a = [] := by
        cases a with
        | nil => rfl
        | cons x xs => simp at hab
      subst ha
      exact ⟨b, by simpa using hab⟩
  | cons x t ih =>
    simp only [pyIn, Bool.or_eq_true, pyPre_iff, ih]
    constructor
    · rintro (⟨s, hs⟩ | ⟨a, b, hab⟩)
      · exact ⟨[], s, by simpa using hs⟩
      · exact ⟨x :: a, b, by simp [hab]⟩
    · rintro ⟨a, b, hab⟩
      cases a with
      | nil => exact Or.inl ⟨b, by simpa using hab⟩
      | cons a0 as =>
        rw [List.cons_append, List.cons_append, List.cons.injEq] at hab
        exact Or.inr ⟨as, b, hab.2⟩

theorem pyIn_of_piece (tok p L : List Char) (hin : pyIn tok p = true)
    (hsub : ∃ a b, L = a ++ p ++ b) : pyIn tok L = true := by
  rw [pyIn_iff] at hin ⊢
  obtain ⟨a, b, rfl⟩ := hin
  obtain ⟨u, v, rfl⟩ := hsub
  exact ⟨u ++ a, b ++ v, by simp⟩

theorem pySplit_ne_nil (c : Char) (l : List Char) : pySplit c l ≠ [] := by
  cases l with
  | nil => simp [pySplit]
  | cons x xs =>
    by_cases hx : x = c
    · simp [pySplit, hx]
    · simp only [pySplit, if_neg hx]
      cases hps : pySplit c xs <;> simp

theorem pySplit_head_start (c : Char) :
    ∀ l p ps, pySplit c l = p :: ps → ∃ t, l = p ++ t := by
  intro l
  induction l with
  | nil =>
    intro p ps h
    simp only [pySplit, List.cons.injEq] at h
    exact ⟨[], by simp [← h.1]⟩
  | cons x xs ih =>
    intro p ps h
    by_cases hx : x = c
    · simp only [pySplit, if_pos hx, List.cons.injEq] at h
      exact ⟨x :: xs, by simp [← h.1]⟩
    · simp only [pySplit, if_neg hx] at h
      cases hps : pySplit c xs with
      | nil => exact absurd hps (pySplit_ne_nil c xs)
      | cons q qs =>
        rw [hps, List.cons.injEq] at h
        obtain ⟨t, ht⟩ := ih q qs hps
        exact ⟨t, by rw [← h.1, List.cons_append, ← ht]⟩

theorem mem_pySplit_piece (c : Char) :
    ∀ l p, p ∈ pySplit c l → ∃ a b, l = a ++ p ++ b := by
  intro l
  induction l with
  | nil =>
    intro p hp
    simp only [pySplit, List.mem_singleton] at hp
    exact ⟨[], [], by simp [hp]⟩
  | cons x xs ih =>
    intro p hp
    by_cases hx : x = c
    · simp only [pySplit, if_pos hx, List.mem_cons] at hp
      rcases hp with rfl | hp
      · exact ⟨[], x :: xs, by simp⟩
      · obtain ⟨a, b, rfl⟩ := ih p hp
        exact ⟨x :: a, b, by simp⟩
    · simp only [pySplit, if_neg hx] at hp
      cases hps : pySplit c xs with
      | nil => exact absurd hps (pySplit_ne_nil c xs)
      | cons q qs =>
        rw [hps, List.mem_cons] at hp
        rcases hp with rfl | hp
        · obtain ⟨t, ht⟩ := pySplit_head_start c xs q qs hps
          exact ⟨[], t, by simp [ht]⟩
        · have hmem : p ∈ pySplit c xs := by rw [hps]; exact List.mem_cons_of_mem _ hp
          obtain ⟨a, b, rfl⟩ := ih p hmem
          exact ⟨x :: a, b, by simp⟩

theorem pyStrip_piece (l : List Char) : ∃ a b, l = a ++ pyStrip l ++ b := by
  refine ⟨l.takeWhile pyWs, ((l.dropWhile pyWs).reverse.takeWhile pyWs).reverse, ?_⟩
  have h1 : l = l.takeWhile pyWs ++ l.dropWhile pyWs :=
    (List.takeWhile_append_dropWhile (p := pyWs) (l := l)).symm
  have h2 : (l.dropWhile pyWs).reverse =
      (l.dropWhile pyWs).reverse.takeWhile pyWs ++ (l.dropWhile pyWs).reverse.dropWhile pyWs :=
    (List.takeWhile_append_dropWhile (p := pyWs)
      (l := (l.dropWhile pyWs).reverse)).symm
  have h3 : l.dropWhile pyWs =
      pyStrip l ++ ((l.dropWhile pyWs).reverse.takeWhile pyWs).reverse := by
    have := congrArg List.reverse h2
    rw [List.reverse_reverse, List.reverse_append] at this
    exact this
  rw [List.append_assoc, ← h3, ← h1]

/-! ### Helper lemmas: the stable descending sort -/

theorem mem_insertDesc (key : α → Nat) (x z : α) :
    ∀ l, z ∈ insertDesc key x l ↔ z = x ∨ z ∈ l := by
  intro l
  induction l with
  | nil => simp [insertDesc]
  | cons y ys ih =>
    by_cases hk : key y ≤ key x
    · simp [insertDesc, if_pos hk]
    · simp only [insertDesc, if_neg hk, List.mem_cons, ih]
      tauto

theorem insertDesc_pairwise (key : α → Nat) (x : α) :
    ∀ l, l.Pairwise (fun a b => key b ≤ key a) →
      (insertDesc key x l).Pairwise (fun a b => key b ≤ key a) := by
  intro l
  induction l with
  | nil => simp [insertDesc]
  | cons y ys ih =>
    intro h
    rw [List.pairwise_cons] at h
    obtain ⟨hy, hys⟩ := h
    by_cases hk : key y ≤ key x
    · simp only [insertDesc, if_pos hk]
      rw [List.pairwise_cons]
      refine ⟨?_, List.pairwise_cons.mpr ⟨hy, hys⟩⟩
      intro z hz
      rcases List.mem_cons.mp hz with rfl | hz
      · exact hk
      · exact le_trans (hy z hz) hk
    · simp only [insertDesc, if_neg hk]
      rw [List.pairwise_cons]
      refine ⟨?_, ih hys⟩
      intro z hz
      rcases (mem_insertDesc key x z ys).mp hz with rfl | hz
      · exact le_of_lt (lt_of_not_le hk)
      · exact hy z hz

theorem sortDesc_pairwise (key : α → Nat) :
    ∀ l : List α, (sortDesc key l).Pairwise (fun a b => key b ≤ key a) := by
  intro l
  induction l with
  | nil => simp [sortDesc]
  | cons x xs ih => exact insertDesc_pairwise key x _ ih

theorem filter_insertDesc (key : α → Nat) (x : α) (k : Nat) :
    ∀ l : List α, (insertDesc key x l).filter (fun a => key a == k) =
      if key x = k then x :: l.filter (fun a => key a == k)
      else l.filter (fun a => key a == k) := by
  intro l
  induction l with
  | nil =>
    by_cases hx : key x = k
    · simp [insertDesc, List.filter, hx]
    · have hb : (key x == k) = false := by simp [hx]
      simp [insertDesc, List.filter, hb, hx]
  | cons y ys ih =>
    by_cases hk : key y ≤ key x
    · simp only [insertDesc, if_pos hk]
      by_cases hx : key x = k <;> simp [List.filter_cons, hx]
    · simp only [insertDesc, if_neg hk]
      rw [List.filter_cons, ih]
      by_cases hy : key y = k <;> by_cases hx : key x = k
      · exact absurd (le_of_eq (hx ▸ hy : key y = key x)) hk
      · simp [List.filter_cons, hy, hx]
      · simp [List.filter_cons, hy, hx]
      · simp [List.filter_cons, hy, hx]

theorem filter_sortDesc (key : α → Nat) (k : Nat) :
    ∀ l : List α, (sortDesc key l).filter (fun a => key a == k) =
      l.filter (fun a => key a == k) := by
  intro l
  induction l with
  | nil => simp [sortDesc]
  | cons x xs ih =>
    rw [sortDesc, filter_insertDesc, ih, List.filter_cons]
    by_cases hx : key x = k <;> simp [hx]

/-! ### Claim theorems -/

/-- Claim C1 (evaluation at the failing input).  The spec says a summary
indicating a non-zero error count yields the accumulated error blocks
followed by the summary line, but the source tests `"0 error" in summary`
and `"0 warning" in summary` by substring containment, which also matches
`"10 errors, 0 warnings"`, so this run with ten reported errors produces no
report at all. -/
theorem check_basedpyright_ten_errors_bug :
    check_basedpyright
      "/f.py\n  /f.py:10:7 - error: Undefined name\n10 errors, 0 warnings, 0 notes" = none := by
  decide

/-- Claim C2: the Ruff-class parser returns nothing when the output carries a
`0 remaining` or all-clear marker; otherwise, when some line carries both
`remaining` and `fixed`, the result is that (first such) line, stripped and
prefixed with the tool name; otherwise any non-all-clear nonempty output is
returned whole under the tool-name prefix. -/
theorem check_ruff_spec (output : String) :
    ((pyIn "0 remaining".data output.data ||
        pyIn "All checks passed".data output.data) = true →
      check_ruff output = none)
    ∧ (∀ l, (pyIn "0 remaining".data output.data ||
          pyIn "All checks passed".data output.data) = false →
        ruffFixLine output.data = some l →
        check_ruff output = some ⟨"ruff: ".data ++ pyStrip l⟩)
    ∧ ((pyIn "0 remaining".data output.data ||
          pyIn "All checks passed".data output.data) = false →
        ruffFixLine output.data = none →
        (pyStrip output.data).isEmpty = false →
        check_ruff output = some ⟨"ruff issues:\n".data ++ pyStrip output.data⟩) := by
  refine ⟨?_, ?_, ?_⟩
  · intro h
    simp [check_ruff, h]
  · intro l hg hfix
    have hmem : l ∈ pySplit '\n' (pyStrip output.data) :=
      List.mem_of_find?_eq_some hfix
    have hpl := List.find?_some hfix
    have hinl : pyIn "remaining".data l = true := (Bool.and_eq_true _ _ |>.mp hpl).1
    have hrem : pyIn "remaining".data output.data = true :=
      pyIn_of_piece _ _ _
        (pyIn_of_piece _ _ _ hinl (mem_pySplit_piece '\n' _ l hmem))
        (pyStrip_piece output.data)
    simp [check_ruff, hg, hrem, hfix]
  · intro hg hfix hne
    have h0 : pyIn "0 remaining".data output.data = false :=
      (Bool.or_eq_false_iff.mp hg).1
    have hAll : pyIn "All checks passed".data output.data = false :=
      (Bool.or_eq_false_iff.mp hg).2
    by_cases hrem : pyIn "remaining".data output.data
    · simp [check_ruff, hg, hrem, hfix, ruffFallback, hne, hAll]
      exact h0
    · simp [check_ruff, hg, hrem, ruffFallback, hne, hAll]
      exact h0

/-- Witness for C2: a concrete run with a fix-summary line. -/
theorem check_ruff_spec_witness :
    check_ruff "Found 3 errors (1 fixed, 2 remaining)." =
      some "ruff: Found 3 errors (1 fixed, 2 remaining)." := by
  have h := (check_ruff_spec "Found 3 errors (1 fixed, 2 remaining).").2.1
    "Found 3 errors (1 fixed, 2 remaining).".data (by decide) (by decide)
  rw [h]
  decide

/-- Claim C3: the Prettier-class parser on the canonical syntax-error output
with exit code 2 produces exactly the two-line report with the base
filename, line and column, then the indented error-type and message. -/
theorem parse_prettier_syntax_error_scenario :
    parse_prettier_output "[error] src/app.ts: SyntaxError: Unexpected token (12:4)" 2 =
      some "Prettier: Syntax error at app.ts:12:4\n  SyntaxError: Unexpected token" := by
  decide

/-- Claim C4: the ESLint-class parser on two identical `semi` issue rows with
a two-problems summary produces exactly the header plus the one grouped rule
line. -/
theorem parse_eslint_grouping_scenario :
    parse_eslint_output
      "src/app.ts\n  3:1  error  Missing semicolon  semi\n  3:1  error  Missing semicolon  semi\n✖ 2 problems (2 errors, 0 warnings)" =
      some "ESLint: 2 error(s) in app.ts\n  - semi: 2× (lines 3, 3)" := by
  decide

/-- Claim C5: whenever the ESLint-class parser returns a report and the
matched issue rows belong to at least two distinct rules, the rendered group
lines are the stably sorted groups: sorted by non-increasing occurrence
count, and equal-count rules keep their first-encounter order (the filtered
sublist at any fixed count is unchanged by the sort). -/
theorem parse_eslint_sorted_groups (output r : String) (total e w k : Nat)
    (hs : eslintSummarySearch output.data = some (total, e, w))
    (hp : parse_eslint_output output = some r)
    (hg : 2 ≤ (eslintRawGroups output.data).length) :
    r = ⟨List.intercalate "\n".data
        (eslintHeader e w (eslintFilename (pySplit '\n' output.data)) ::
          (eslintSorted output.data).map renderGroup)⟩
    ∧ (eslintSorted output.data).Pairwise (fun a b => b.2.length ≤ a.2.length)
    ∧ (eslintSorted output.data).filter (fun g => g.2.length == k) =
        (eslintRawGroups output.data).filter (fun g => g.2.length == k) := by
  refine ⟨?_, ?_, ?_⟩
  · have hne : (eslintRawGroups output.data).isEmpty = false := by
      cases hgl : eslintRawGroups output.data with
      | nil => rw [hgl] at hg; simp at hg
      | cons a as => simp [List.isEmpty]
    simp only [parse_eslint_output, hs, hne] at hp
    split at hp
    · simp at hp
    · split at hp
      · simp at hp
      · split at hp
        · simp at hp
        · simp only [Bool.false_eq_true, if_false] at hp
          exact (Option.some.inj hp).symm
  · simpa [eslintSorted] using
      sortDesc_pairwise (fun g : List Char × List (List Char) => g.2.length)
        (eslintRawGroups output.data)
  · simpa [eslintSorted] using
      filter_sortDesc (fun g : List Char × List (List Char) => g.2.length) k
        (eslintRawGroups output.data)

/-- Witness for C5: three issues from two rules; the two-occurrence rule is
rendered before the one-occurrence rule, and the count-one filtered sublist
is unchanged. -/
theorem parse_eslint_sorted_groups_witness :
    eslintC5Report = (⟨List.intercalate "\n".data
        (eslintHeader 3 0 (eslintFilename (pySplit '\n' eslintC5Input.data)) ::
          (eslintSorted eslintC5Input.data).map renderGroup)⟩ : String)
    ∧ (eslintSorted eslintC5Input.data).Pairwise (fun a b => b.2.length ≤ a.2.length)
    ∧ (eslintSorted eslintC5Input.data).filter (fun g => g.2.length == 1) =
        (eslintRawGroups eslintC5Input.data).filter (fun g => g.2.length == 1) :=
  parse_eslint_sorted_groups eslintC5Input eslintC5Report 3 3 0 1
    (by decide) (by decide) (by decide)

/-- Claim C6: the ESLint-class parser returns nothing on empty or
whitespace-only input, on input where the problems-summary pattern matches
nowhere, and on input whose summary reports zero total problems. -/
theorem parse_eslint_none_cases (output : String) :
    ((pyStrip output.data).isEmpty = true → parse_eslint_output output = none)
    ∧ (eslintSummarySearch output.data = none → parse_eslint_output output = none)
    ∧ (∀ e w, eslintSummarySearch output.data = some (0, e, w) →
        parse_eslint_output output = none) := by
  refine ⟨?_, ?_, ?_⟩
  · intro h
    simp [parse_eslint_output, h]
  · intro h
    simp only [parse_eslint_output, h]
    split
    · rfl
    · split
      · rfl
      · rfl
  · intro e w h
    simp only [parse_eslint_output, h]
    split
    · rfl
    · split
      · rfl
      · simp

/-- Witness for C6: a whitespace-only run, a run with no summary line, and a
zero-problems summary. -/
theorem parse_eslint_none_cases_witness :
    parse_eslint_output "   " = none
    ∧ parse_eslint_output "some unrelated text" = none
    ∧ parse_eslint_output "✖ 0 problems (0 errors, 0 warnings)" = none :=
  ⟨(parse_eslint_none_cases "   ").1 (by decide),
   (parse_eslint_none_cases "some unrelated text").2.1 (by decide),
   (parse_eslint_none_cases "✖ 0 problems (0 errors, 0 warnings)").2.2 0 0 (by decide)⟩

/-- Claim C7: every report of the tsc-class parser is the header built from
the length of the rendered detail-line list followed by exactly those detail
lines (so the header count equals the number of detail lines); and a nonzero
exit with nonempty output but no matching error line yields no report. -/
theorem parse_typescript_spec (output : String) (ec : Int) :
    (∀ r, parse_typescript_output output ec = some r →
      r = ⟨List.intercalate "\n".data
        (tsHeader ((tsErrors output.data).map tsRender).length (tsFilename output.data) ::
          (tsErrors output.data).map tsRender)⟩)
    ∧ (ec ≠ 0 → (pyStrip output.data).isEmpty = false → tsErrors output.data = [] →
        parse_typescript_output output ec = none) := by
  constructor
  · intro r hp
    simp only [parse_typescript_output] at hp
    split at hp
    · simp at hp
    · split at hp
      · simp at hp
      · rw [List.length_map]
        exact (Option.some.inj hp).symm
  · intro hec hne herr
    have h0 : decide (ec = 0) = false := decide_eq_false hec
    have hLne : output.data.isEmpty = false := by
      cases hL : output.data with
      | nil => rw [hL] at hne; simp [pyStrip] at hne
      | cons a as => simp
    simp [parse_typescript_output, h0, hLne, hne, herr]

/-- Witness for C7: a two-error run whose header count is the length of its
two detail lines, and an unparseable nonzero-exit run that yields no
report. -/
theorem parse_typescript_spec_witness :
    (tsC7Report = (⟨List.intercalate "\n".data
        (tsHeader ((tsErrors tsC7Input.data).map tsRender).length (tsFilename tsC7Input.data) ::
          (tsErrors tsC7Input.data).map tsRender)⟩ : String))
    ∧ parse_typescript_output "garbage output" 1 = none :=
  ⟨(parse_typescript_spec tsC7Input 2).1 tsC7Report (by decide),
   (parse_typescript_spec "garbage output" 1).2 (by decide) (by decide) (by decide)⟩

/-- Claim C8: on a nonzero-exit bandit run whose output carries the
severity-totals marker, only severities with non-zero counts appear in the
summary line, in window order; in particular `Low=0, Medium=2, High=0`
(flags `false, true, false`) yields exactly `bandit: Medium: 2`. -/
theorem check_bandit_nonzero_severities (b1 b2 b3 : Bool) :
    check_bandit (banditC8Output b1 b2 b3) 1 = banditC8Expected b1 b2 b3 := by
  cases b1 <;> cases b2 <;> cases b3 <;> decide

/-- Claim C9: all six per-tool parsers are pure functions of the captured
output text (and exit code where consulted), so invoking any of them twice
on identical input produces identical output. -/
theorem parsers_deterministic (output : String) (exit_code : Int) :
    check_ruff output = check_ruff output
    ∧ check_basedpyright output = check_basedpyright output
    ∧ check_bandit output exit_code = check_bandit output exit_code
    ∧ parse_prettier_output output exit_code = parse_prettier_output output exit_code
    ∧ parse_eslint_output output = parse_eslint_output output
    ∧ parse_typescript_output output exit_code = parse_typescript_output output exit_code :=
  ⟨rfl, rfl, rfl, rfl, rfl, rfl⟩

/-- Claim C10: with exit code 2, when the structured error pattern matches
nowhere and no `[error]` marker is present, the Prettier-class parser falls
through to the generic unexpected-exit-code message. -/
theorem parse_prettier_exit2_generic (output : String)
    (hs : prettierErrorSearch output.data = none)
    (he : pyIn "[error]".data output.data = false) :
    parse_prettier_output output 2 = some "Prettier: Unexpected exit code 2" := by
  simp [parse_prettier_output, hs, he]
  rfl

/-- Witness for C10: an output with neither the structured pattern nor an
`[error]` marker. -/
theorem parse_prettier_exit2_generic_witness :
    parse_prettier_output "the formatter crashed for an unknown reason" 2 =
      some "Prettier: Unexpected exit code 2" :=
  parse_prettier_exit2_generic "the formatter crashed for an unknown reason"
    (by decide) (by decide)

end QualityHooks
